import Mathlib

/-!
Verification development for the vector-sdk-js bot runtime.

The definitions below are a shallow embedding of the TypeScript sources:
`VectorClient.publish` (quorum publisher), and the `VectorBotClient` class
(group registry, envelope dispatcher, directed-to-bot classifier, message
emitter with dedup cache, connection monitor, historical bootstrap,
group send).

Modelling conventions:
- JavaScript `Set<string>` (insertion ordered) is a `List String` with
  membership-guarded append (`setAdd`).
- Asynchronous adapter / crypto / network calls are oracles supplied as
  explicit arguments (`AdapterCall`, `TryResult`, unwrap results,
  per-attempt publish outcomes); state mutation performed inside promise
  continuations is folded into the handler step in program order.
- JS string operations are modelled over the character list of the Lean
  string; `toLowerCase` is modelled on the ASCII range.
- `emit(...)` calls are recorded in an `emitted` trace list.
-/

set_option autoImplicit false

namespace VectorSdk

/-! ## JS string primitives -/

/-- Whitespace as used by `String.prototype.trim` / regex `\s` (ASCII model). -/
def isJsWhitespace (c : Char) : Bool := c.isWhitespace

/-- Model of `String.prototype.trim`. -/
def jsTrim (s : String) : String :=
  String.mk (((s.data.dropWhile isJsWhitespace).reverse.dropWhile isJsWhitespace).reverse)

/-- ASCII lowering of one char, as `toLowerCase` acts on the ASCII range. -/
def jsLowerChar (c : Char) : Char :=
  if 'A' ≤ c ∧ c ≤ 'Z' then Char.ofNat (c.toNat + 32) else c

/-- Model of `String.prototype.toLowerCase` (ASCII model). -/
def jsToLower (s : String) : String :=
  String.mk (s.data.map jsLowerChar)

/-- Model of `String.prototype.startsWith`. -/
def strStartsWith (s p : String) : Bool :=
  p.data.isPrefixOf s.data

/-- One character of the identifier pattern `[a-f0-9]` with the `i` flag. -/
def isHexIdChar (c : Char) : Bool :=
  decide ('0' ≤ c ∧ c ≤ '9') || decide ('a' ≤ c ∧ c ≤ 'f') || decide ('A' ≤ c ∧ c ≤ 'F')

/-- Model of the test `/^[a-f0-9]{32,64}$/i`. -/
def isHexId (s : String) : Bool :=
  decide (32 ≤ s.data.length) && decide (s.data.length ≤ 64) && s.data.all isHexIdChar

/-- Model of the test `/^\!\S+/` (a `!` followed by at least one non-space char). -/
def startsBangCommand (s : String) : Bool :=
  match s.data with
  | '!' :: c :: _ => !(isJsWhitespace c)
  | _ => false

/-- JS `Set.add`: append unless already present (insertion order preserved). -/
def setAdd (l : List String) (x : String) : List String :=
  if x ∈ l then l else l ++ [x]

/-! ## Event kinds (nostr-tools constants and the vector kinds from the source) -/

def EncryptedDirectMessageKind : Nat := 4
def ChatMessageKind : Nat := 9
def PrivateDirectMessageKind : Nat := 14
def VECTOR_MLS_WELCOME_KIND : Nat := 443
def VECTOR_MLS_GROUP_WRAPPER_KIND : Nat := 444
def GIFT_WRAP_KIND : Nat := 1059

/-! ## Data model -/

/-- A signed relay event (`Event` from nostr-tools). -/
structure NostrEvent where
  id : String
  pubkey : String
  created_at : Nat
  kind : Nat
  tags : List (List String)
  content : String
  sig : String
deriving DecidableEq, Repr

/-- The plaintext rumor recovered by `nip59.unwrapEvent`; `id`, `sig` and
`created_at` may be structurally absent (the `typeof` checks in
`normalizeRumorWrapperEvent`). -/
structure Rumor where
  id : Option String
  pubkey : String
  created_at : Option Nat
  kind : Nat
  tags : List (List String)
  content : String
  sig : Option String
deriving DecidableEq, Repr

/-- The bot identity fields read by the dispatcher and classifier. -/
structure BotInfo where
  publicKey : String
  name : String
  displayName : String
deriving DecidableEq, Repr

/-- Client configuration already resolved the way the source reads it:
`vectorOnly` stands for `options.vectorOnly !== false` and
`discoverGroupsFromHistory` for the options flag. -/
structure Config where
  vectorOnly : Bool
  discoverGroupsFromHistory : Bool
deriving DecidableEq, Repr

/-- Result of `mlsAdapter.decryptGroupWrapper`. -/
structure MlsDecrypted where
  groupId : String
  senderPubkey : String
  content : String
  kind : Option Nat
deriving DecidableEq, Repr

/-- Cached profile record (`{name?, displayName?}`). -/
structure Profile where
  name : Option String
  displayName : Option String
deriving DecidableEq, Repr

/-- Outcome of an optional asynchronous adapter method:
not provided, promise rejected, or promise fulfilled with a value. -/
inductive AdapterCall (α : Type) where
  | absent
  | threw
  | ok (a : α)
deriving DecidableEq, Repr

/-- Outcome of an awaited call that can throw. -/
inductive TryResult (α : Type) where
  | ok (a : α)
  | threw
deriving DecidableEq, Repr

/-- The payload of the `message` emission. -/
structure EmittedMessage where
  pubkey : String
  conversationId : String
  groupId : Option String
  isGroup : Bool
  botInGroup : Bool
  directedToBot : Bool
  origin : String
  kind : Nat
  rawEvent : NostrEvent
  wrapped : Bool
  displayName : Option String
  content : String
  self : Bool
deriving DecidableEq, Repr

/-- The observable emissions of the client (`this.emit(...)` calls). -/
inductive Emitted where
  | message (m : EmittedMessage)
  | errorEv (msg : String)
  | groupDiscovered (groupId eventId sender source : String)
  | groupWrapper (groupId eventId : String)
  | groupWrapperUnresolved (eventId sender : String)
  | groupBootstrapDebug (giftWrapCount wrapperCount : Nat)
  | groupBootstrapComplete (discovered : Nat) (knownGroupIds : List String)
  | mlsWelcome (eventId : String)
  | mlsWelcomeSync (processed accepted : Nat) (groups : List String)
  | mlsWelcomeProcessed (groupId : Option String)
  | mlsWelcomeProcessFailed
  | mlsWrapperDecryptHit (groupId eventId sender : String)
  | mlsWrapperDecryptMiss (groupId eventId : String)
  | mlsWrapperDecryptFailed (groupId eventId : String)
deriving DecidableEq, Repr

/-- The mutable state of one `VectorBotClient` instance relevant to the
group registry, dedup cache, and emissions. -/
structure ClientState where
  configuredGroupIds : List String
  joinedGroupIds : List String
  knownGroupIds : List String
  observedGroupIds : List String
  seenMessageIds : List String
  emitted : List Emitted
deriving DecidableEq, Repr

/-- Record one emission. -/
def emitEv (st : ClientState) (e : Emitted) : ClientState :=
  { st with emitted := st.emitted ++ [e] }

/-- The state produced by the `VectorBotClient` constructor from
`options.groupIds`: each trimmed, non-empty id goes into the configured,
joined and known sets. -/
def initState (groupIds : List String) : ClientState :=
  groupIds.foldl
    (fun st g =>
      let normalized := jsTrim g
      if normalized = "" then st
      else
        { st with
          configuredGroupIds := setAdd st.configuredGroupIds normalized
          joinedGroupIds := setAdd st.joinedGroupIds normalized
          knownGroupIds := setAdd st.knownGroupIds normalized })
    { configuredGroupIds := [], joinedGroupIds := [], knownGroupIds := []
      observedGroupIds := [], seenMessageIds := [], emitted := [] }

/-! ## Tag helpers and group-id extraction -/

/-- `findFirstTagValue`: first tag whose key matches and which carries a
string value (a tag of length ≥ 2); scanning continues past key-only tags. -/
def findFirstTagValue (tags : List (List String)) (tagName : String) : Option String :=
  tags.findSome? fun t =>
    match t with
    | a :: b :: _ => if a = tagName then some b else none
    | _ => none

/-- The final scan of `extractGroupIdFromEvent`: any tag value matching the
hex identifier pattern. -/
def extractGroupIdScan (ev : NostrEvent) : Option String :=
  ev.tags.findSome? fun t =>
    match t.get? 1 with
    | some v => if isHexId v then some v else none
    | none => none

/-- The `d`-tag fallback of `extractGroupIdFromEvent`. -/
def extractGroupIdFallback (ev : NostrEvent) : Option String :=
  match findFirstTagValue ev.tags "d" with
  | some d => if d ≠ "" && isHexId d then some d else extractGroupIdScan ev
  | none => extractGroupIdScan ev

/-- `extractGroupIdFromEvent`: an `h` tag (else `H`, via `??`) wins when its
value is truthy; else a hex-shaped `d` tag; else any hex-shaped tag value. -/
def extractGroupIdFromEvent (ev : NostrEvent) : Option String :=
  let hTag :=
    match findFirstTagValue ev.tags "h" with
    | some v => some v
    | none => findFirstTagValue ev.tags "H"
  match hTag with
  | some v => if v ≠ "" then some v else extractGroupIdFallback ev
  | none => extractGroupIdFallback ev

/-! ## Directed-to-bot classifier and membership checks -/

/-- The p-tag mention scan at the top of `isGroupContentDirectedToBot`. -/
def hasBotPTag (bot : BotInfo) (tags : List (List String)) : Bool :=
  tags.any fun t => decide (t.get? 0 = some "p" ∧ t.get? 1 = some bot.publicKey)

/-- One name test of the classifier: the name is truthy and the lowered text
starts with `@name` or `name:`. -/
def nameMention (lower nm : String) : Bool :=
  (!(nm == "")) && (strStartsWith lower ("@" ++ nm) || strStartsWith lower (nm ++ ":"))

/-- `isGroupContentDirectedToBot`, translated clause by clause. -/
def isGroupContentDirectedToBot (bot : BotInfo) (content : String)
    (botInGroup : Bool) (tags : List (List String)) : Bool :=
  if hasBotPTag bot tags then true
  else
    let text := jsTrim content
    if text == "" then false
    else
      let lower := jsToLower text
      if nameMention lower (jsToLower bot.name) then true
      else if nameMention lower (jsToLower bot.displayName) then true
      else if botInGroup && startsBangCommand text then true
      else false

/-- `isGroupMessageDirectedToBot` (the `event.content ?? ''` coalesce is a
no-op in this typed model). -/
def isGroupMessageDirectedToBot (bot : BotInfo) (ev : NostrEvent)
    (botInGroup : Bool) : Bool :=
  isGroupContentDirectedToBot bot ev.content botInGroup ev.tags

/-- `isBotInGroup`: note the side effect — a bot-authored event registers the
group id into `joinedGroupIds`. -/
def isBotInGroup (bot : BotInfo) (st : ClientState) (groupId : String)
    (ev : NostrEvent) : Bool × ClientState :=
  if ev.pubkey = bot.publicKey then
    (true, { st with joinedGroupIds := setAdd st.joinedGroupIds groupId })
  else if groupId ∈ st.joinedGroupIds then (true, st)
  else if groupId ∈ st.configuredGroupIds then (true, st)
  else (false, st)

/-- `isGroupTracked`: joined, configured, or known. -/
def isGroupTracked (st : ClientState) (groupId : String) : Bool :=
  decide (groupId ∈ st.joinedGroupIds) || decide (groupId ∈ st.configuredGroupIds) ||
    decide (groupId ∈ st.knownGroupIds)

/-! ## Message emitter -/

/-- The override argument of `emitMessage`. -/
structure MsgOverride where
  conversationId : Option String
  groupId : Option String
  isGroup : Option Bool
  botInGroup : Option Bool
  directedToBot : Option Bool
deriving DecidableEq, Repr

/-- JS `a || b` over possibly-absent strings (empty string is falsy). -/
def jsOrStr (a b : Option String) : Option String :=
  match a with
  | some s => if s ≠ "" then some s else b
  | none => b

/-- The dedup cache insertion of `emitMessage`: add the id, then once the
size goes over 10000 delete the oldest entry (the truthiness check means
an empty-string oldest id is not deleted). -/
def dedupInsert (seen : List String) (id : String) : List String :=
  let seen0 := setAdd seen id
  if seen0.length > 10000 then
    match seen0 with
    | [] => seen0
    | oldest :: rest => if oldest = "" then seen0 else rest
  else seen0

/-- `emitMessage`: dedup by event id (via `dedupInsert`), profile resolution
(an oracle standing for the cached pool lookup), then one `message`
emission. -/
def emitMessage (bot : BotInfo) (profiles : String → Option Profile)
    (st : ClientState) (pubkey : String) (kind : Nat) (rawEvent : NostrEvent)
    (content : String) (wrapped : Bool) (override : Option MsgOverride) :
    ClientState :=
  if rawEvent.id ∈ st.seenMessageIds then st
  else
    let seen1 := dedupInsert st.seenMessageIds rawEvent.id
    let profile := profiles pubkey
    let isGroupV := override.bind MsgOverride.isGroup
    let isGroupTruthy := isGroupV = some true
    let msg : EmittedMessage :=
      { pubkey := pubkey
        conversationId := (override.bind MsgOverride.conversationId).getD pubkey
        groupId := override.bind MsgOverride.groupId
        isGroup := isGroupV.getD false
        botInGroup :=
          if isGroupTruthy then (override.bind MsgOverride.botInGroup).getD false
          else false
        directedToBot :=
          if isGroupTruthy then (override.bind MsgOverride.directedToBot).getD false
          else true
        origin := if isGroupTruthy then "group" else "dm"
        kind := kind
        rawEvent := rawEvent
        wrapped := wrapped
        displayName := jsOrStr (profile.bind Profile.displayName) (profile.bind Profile.name)
        content := content
        self := decide (pubkey = bot.publicKey) }
    { st with seenMessageIds := seen1, emitted := st.emitted ++ [Emitted.message msg] }

/-! ## Envelope dispatcher -/

/-- `normalizeRumorWrapperEvent`: rebuild a relay event from a rumor, falling
back to the outer envelope where the rumor is structurally unusable. -/
def normalizeRumorWrapperEvent (rumor : Rumor) (outerEvent : NostrEvent) : NostrEvent :=
  let rumorId :=
    match rumor.id with
    | some i => if i.data.length = 64 && i.data.all isHexIdChar then i else outerEvent.id
    | none => outerEvent.id
  let rumorSig :=
    match rumor.sig with
    | some s => if s ≠ "" then s else outerEvent.sig
    | none => outerEvent.sig
  let rumorCreatedAt :=
    match rumor.created_at with
    | some t => t
    | none => outerEvent.created_at
  { id := rumorId
    pubkey := if rumor.pubkey ≠ "" then rumor.pubkey else outerEvent.pubkey
    created_at := rumorCreatedAt
    kind := rumor.kind
    tags := rumor.tags
    content := rumor.content
    sig := rumorSig }

/-- `handleDirectMessage` with the `nip04.decrypt` outcome as an oracle. -/
def handleDirectMessage (bot : BotInfo) (profiles : String → Option Profile)
    (decrypt : TryResult String) (st : ClientState) (ev : NostrEvent) : ClientState :=
  if ev.kind ≠ EncryptedDirectMessageKind then st
  else
    match decrypt with
    | .ok m => emitMessage bot profiles st ev.pubkey ev.kind ev m false none
    | .threw => emitEv st (Emitted.errorEv "Failed to decrypt NIP-04 DM")

/-- `handleGroupMessage`. The `decryptGroupWrapper` promise continuation is
folded into the step in program order; `decrypt` is its oracle
(`absent` = no adapter method). -/
def handleGroupMessage (cfg : Config) (bot : BotInfo)
    (profiles : String → Option Profile)
    (decrypt : AdapterCall (Option MlsDecrypted))
    (st : ClientState) (ev : NostrEvent) : ClientState :=
  let expectedKind := if cfg.vectorOnly then VECTOR_MLS_GROUP_WRAPPER_KIND else ChatMessageKind
  if ev.kind ≠ expectedKind then st
  else
    match extractGroupIdFromEvent ev with
    | none => emitEv st (Emitted.groupWrapperUnresolved ev.id ev.pubkey)
    | some groupId =>
      let st := { st with observedGroupIds := setAdd st.observedGroupIds groupId }
      if cfg.vectorOnly then
        if !(isGroupTracked st groupId) then st
        else
          let st :=
            if groupId ∈ st.knownGroupIds then st
            else
              emitEv { st with knownGroupIds := setAdd st.knownGroupIds groupId }
                (Emitted.groupDiscovered groupId ev.id ev.pubkey "live")
          let st := emitEv st (Emitted.groupWrapper groupId ev.id)
          match decrypt with
          | .absent => st
          | .threw =>
            emitEv (emitEv st (Emitted.mlsWrapperDecryptFailed groupId ev.id))
              (Emitted.errorEv "MLS adapter decrypt failed")
          | .ok none => emitEv st (Emitted.mlsWrapperDecryptMiss groupId ev.id)
          | .ok (some d) =>
            if d.content = "" then emitEv st (Emitted.mlsWrapperDecryptMiss groupId ev.id)
            else
              let resolvedGroupId := if d.groupId ≠ "" then d.groupId else groupId
              let sender := if d.senderPubkey ≠ "" then d.senderPubkey else ev.pubkey
              let st := emitEv st (Emitted.mlsWrapperDecryptHit resolvedGroupId ev.id sender)
              let st :=
                { st with
                  knownGroupIds := setAdd st.knownGroupIds resolvedGroupId
                  joinedGroupIds := setAdd st.joinedGroupIds resolvedGroupId }
              let directedToBot := isGroupContentDirectedToBot bot d.content true ev.tags
              emitMessage bot profiles st sender (d.kind.getD ChatMessageKind) ev
                d.content false
                (some { conversationId := some resolvedGroupId
                        groupId := some resolvedGroupId
                        isGroup := some true
                        botInGroup := some true
                        directedToBot := some directedToBot })
      else
        let r := isBotInGroup bot st groupId ev
        let directedToBot := isGroupMessageDirectedToBot bot ev r.1
        emitMessage bot profiles r.2 ev.pubkey ev.kind ev ev.content false
          (some { conversationId := some groupId
                  groupId := some groupId
                  isGroup := some true
                  botInGroup := some r.1
                  directedToBot := some directedToBot })

/-- `handleGiftWrap`: `unwrap` is the `nip59.unwrapEvent` outcome (`none` =
the unwrap threw, caught and only logged); `welcome` is the
`processWelcome` oracle, whose continuation is folded in after the
synchronous `mls_welcome` emission. -/
def handleGiftWrap (cfg : Config) (bot : BotInfo)
    (profiles : String → Option Profile)
    (unwrap : Option Rumor)
    (welcome : AdapterCall (Option String))
    (decrypt : AdapterCall (Option MlsDecrypted))
    (st : ClientState) (ev : NostrEvent) (emitDirectMessages : Bool) : ClientState :=
  match unwrap with
  | none => st
  | some rumor =>
    if emitDirectMessages && decide (rumor.kind = PrivateDirectMessageKind) &&
        !(rumor.content == "") then
      emitMessage bot profiles st rumor.pubkey rumor.kind ev rumor.content true none
    else if rumor.kind = VECTOR_MLS_GROUP_WRAPPER_KIND then
      handleGroupMessage cfg bot profiles decrypt st (normalizeRumorWrapperEvent rumor ev)
    else if rumor.kind = VECTOR_MLS_WELCOME_KIND then
      let groupIdHint := findFirstTagValue rumor.tags "h"
      let st :=
        match groupIdHint with
        | some g =>
          if g ≠ "" then
            emitEv
              { st with
                knownGroupIds := setAdd st.knownGroupIds g
                joinedGroupIds := setAdd st.joinedGroupIds g }
              (Emitted.groupDiscovered g ev.id rumor.pubkey "welcome")
          else st
        | none => st
      let st := emitEv st (Emitted.mlsWelcome ev.id)
      match welcome with
      | .absent => st
      | .threw =>
        emitEv (emitEv st Emitted.mlsWelcomeProcessFailed)
          (Emitted.errorEv "MLS adapter processWelcome failed")
      | .ok res =>
        let st := emitEv st (Emitted.mlsWelcomeProcessed res)
        match res with
        | none => st
        | some g =>
          let groupId := jsTrim g
          if groupId = "" then st
          else if groupId ∈ st.knownGroupIds then st
          else
            emitEv
              { st with
                knownGroupIds := setAdd st.knownGroupIds groupId
                joinedGroupIds := setAdd st.joinedGroupIds groupId }
              (Emitted.groupDiscovered groupId ev.id rumor.pubkey "welcome-adapter")
    else st

/-! ## Historical bootstrap -/

/-- Result of `mlsAdapter.syncWelcomes` (`accepted` is optional). -/
structure SyncResult where
  processed : Nat
  accepted : Option Nat
  groups : List String
deriving DecidableEq, Repr

/-- One gift-wrap event of the bootstrap query together with its oracles. -/
structure GiftWrapInput where
  ev : NostrEvent
  unwrap : Option Rumor
  welcome : AdapterCall (Option String)
  decrypt : AdapterCall (Option MlsDecrypted)
deriving Repr

/-- Everything the bootstrap obtains from the network and the adapter. -/
structure BootstrapOracles where
  giftWraps : List GiftWrapInput
  syncWelcomes : AdapterCall (Option SyncResult)
  bootstrapGroups : AdapterCall (List String)
  wrapperEvents : List NostrEvent
deriving Repr

/-- The registration step shared by the `syncWelcomes` and `bootstrapGroups`
loops: trim, skip empty, register unseen ids into known and joined. -/
def registerAdapterGroup (evId sender : String) (st : ClientState) (g : String) :
    ClientState :=
  let normalized := jsTrim g
  if normalized = "" then st
  else if normalized ∈ st.knownGroupIds then st
  else
    emitEv
      { st with
        knownGroupIds := setAdd st.knownGroupIds normalized
        joinedGroupIds := setAdd st.joinedGroupIds normalized }
      (Emitted.groupDiscovered normalized evId sender "adapter")

/-- One event of the wrapper-history discovery loop, threading the
`discovered` counter. -/
def bootstrapWrapperStep (vectorOnly : Bool) (acc : ClientState × Nat)
    (ev : NostrEvent) : ClientState × Nat :=
  match extractGroupIdFromEvent ev with
  | none => acc
  | some groupId =>
    let st := { acc.1 with observedGroupIds := setAdd acc.1.observedGroupIds groupId }
    if vectorOnly && !(isGroupTracked st groupId) then (st, acc.2)
    else if groupId ∈ st.knownGroupIds then (st, acc.2)
    else
      (emitEv { st with knownGroupIds := setAdd st.knownGroupIds groupId }
         (Emitted.groupDiscovered groupId ev.id ev.pubkey "history"),
       acc.2 + 1)

/-- The gift-wrap replay phase of the bootstrap (live handler with
`emitDirectMessages = false`). -/
def bootstrapGiftWrapPhase (cfg : Config) (bot : BotInfo)
    (profiles : String → Option Profile) (l : List GiftWrapInput)
    (st : ClientState) : ClientState :=
  l.foldl
    (fun s gw => handleGiftWrap cfg bot profiles gw.unwrap gw.welcome gw.decrypt s gw.ev false)
    st

/-- The `syncWelcomes` phase of the bootstrap. -/
def bootstrapSyncPhase (bot : BotInfo) (sync : AdapterCall (Option SyncResult))
    (st : ClientState) : ClientState :=
  match sync with
  | .absent => st
  | .threw =>
    emitEv (emitEv st Emitted.mlsWelcomeProcessFailed)
      (Emitted.errorEv "MLS adapter syncWelcomes failed")
  | .ok synced =>
    let processed := (synced.map SyncResult.processed).getD 0
    let accepted := ((synced.bind SyncResult.accepted)).getD 0
    let groups := (synced.map SyncResult.groups).getD []
    let st := emitEv st (Emitted.mlsWelcomeSync processed accepted groups)
    let st :=
      if groups.length ≠ 0 then
        groups.foldl (registerAdapterGroup "adapter-sync-welcomes" bot.publicKey) st
      else st
    if processed > 0 || accepted > 0 || groups.length > 0 then
      emitEv st
        (Emitted.mlsWelcomeProcessed
          (let joined := String.intercalate "," groups
           if joined = "" then none else some joined))
    else st

/-- The `bootstrapGroups` adapter phase of the bootstrap. -/
def bootstrapAdapterPhase (bot : BotInfo) (bg : AdapterCall (List String))
    (st : ClientState) : ClientState :=
  match bg with
  | .absent => st
  | .threw => emitEv st (Emitted.errorEv "MLS adapter bootstrap failed")
  | .ok groups =>
    groups.foldl (registerAdapterGroup "adapter-bootstrap" bot.publicKey) st

/-- `bootstrapKnownGroups`: gift-wrap replay, adapter welcome sync, adapter
bootstrap listing, wrapper-history discovery, then the debug and complete
summaries. -/
def bootstrapKnownGroups (cfg : Config) (bot : BotInfo)
    (profiles : String → Option Profile)
    (o : BootstrapOracles) (st : ClientState) : ClientState :=
  if !cfg.discoverGroupsFromHistory then st
  else
    let st := bootstrapGiftWrapPhase cfg bot profiles o.giftWraps st
    let st := bootstrapSyncPhase bot o.syncWelcomes st
    let st := bootstrapAdapterPhase bot o.bootstrapGroups st
    let acc := o.wrapperEvents.foldl (bootstrapWrapperStep cfg.vectorOnly) (st, 0)
    let stD := emitEv acc.1 (Emitted.groupBootstrapDebug o.giftWraps.length o.wrapperEvents.length)
    emitEv stD (Emitted.groupBootstrapComplete acc.2 stD.knownGroupIds)

/-! ## Group send -/

/-- The failure modes of `sendGroupMessage` that surface as thrown errors. -/
inductive SendError where
  | notConnected
  | missingGroupId
  | adapterThrew
  | publishFailed
deriving DecidableEq, Repr

/-- Outcome of `sendGroupMessage`: a thrown error or the returned boolean. -/
inductive SendResult where
  | threw (e : SendError)
  | returned (b : Bool)
deriving DecidableEq, Repr

/-- `sendGroupMessage`: `adapterSend` is the `mlsAdapter.sendGroupMessage`
oracle, `publishOutcome` the open-mode `publishEvent` outcome. The group
registry gains the trimmed id only after a successful send. -/
def sendGroupMessage (cfg : Config) (connected : Bool)
    (adapterSend : AdapterCall Bool) (publishOutcome : TryResult Unit)
    (st : ClientState) (groupId message : String) : SendResult × ClientState :=
  if !connected then (SendResult.threw SendError.notConnected, st)
  else
    let normalizedGroupId := jsTrim groupId
    if normalizedGroupId = "" then (SendResult.threw SendError.missingGroupId, st)
    else
      let register (s : ClientState) : ClientState :=
        { s with
          joinedGroupIds := setAdd s.joinedGroupIds normalizedGroupId
          knownGroupIds := setAdd s.knownGroupIds normalizedGroupId }
      if cfg.vectorOnly then
        match adapterSend with
        | .absent =>
          (SendResult.returned false,
           emitEv st (Emitted.errorEv
             "Vector MLS group send requires options.mlsAdapter.sendGroupMessage"))
        | .threw => (SendResult.threw SendError.adapterThrew, st)
        | .ok false => (SendResult.returned false, st)
        | .ok true => (SendResult.returned true, register st)
      else
        match publishOutcome with
        | .threw => (SendResult.threw SendError.publishFailed, st)
        | .ok _ => (SendResult.returned true, register st)

/-! ## Client operations (the step relation over one client instance) -/

/-- One operation of the live client, carrying the oracles its asynchronous
collaborators would supply. -/
inductive ClientOp where
  | giftWrap (g : GiftWrapInput) (emitDirectMessages : Bool)
  | directMessage (ev : NostrEvent) (decrypt : TryResult String)
  | groupMessage (ev : NostrEvent) (decrypt : AdapterCall (Option MlsDecrypted))
  | bootstrap (o : BootstrapOracles)
  | sendGroup (groupId message : String) (connected : Bool)
      (adapterSend : AdapterCall Bool) (publishOutcome : TryResult Unit)

/-- Apply one client operation to the state. -/
def applyOp (cfg : Config) (bot : BotInfo) (profiles : String → Option Profile)
    (st : ClientState) : ClientOp → ClientState
  | .giftWrap g edm => handleGiftWrap cfg bot profiles g.unwrap g.welcome g.decrypt st g.ev edm
  | .directMessage ev d => handleDirectMessage bot profiles d st ev
  | .groupMessage ev d => handleGroupMessage cfg bot profiles d st ev
  | .bootstrap o => bootstrapKnownGroups cfg bot profiles o st
  | .sendGroup gid msg conn adapterSend pub =>
    (sendGroupMessage cfg conn adapterSend pub st gid msg).2

/-- Run a sequence of client operations. -/
def runOps (cfg : Config) (bot : BotInfo) (profiles : String → Option Profile)
    (st : ClientState) (ops : List ClientOp) : ClientState :=
  ops.foldl (applyOp cfg bot profiles) st

/-! ## Quorum publisher (`VectorClient.publish`) -/

/-- Outcome of one per-relay publish promise as seen by `Promise.allSettled`. -/
inductive Settled where
  | fulfilled
  | rejected (reason : String)
deriving DecidableEq, Repr

/-- A network request issued by `publish`. -/
inductive NetAction where
  | ensureRelay (relay : String)
  | publishRequest (relays : List String)
deriving DecidableEq, Repr

/-- Result of `publish`: resolution or the thrown error message, plus the
trace of network requests issued. -/
structure PublishResult where
  outcome : TryResult Unit
  errorMsg : Option String
  trace : List NetAction
deriving DecidableEq, Repr

def Settled.isFulfilled : Settled → Bool
  | .fulfilled => true
  | .rejected _ => false

/-- One attempt of `publish`: best-effort `ensureRelay` for every relay, one
publish request, then the settled outcomes; `none` means at least one
relay fulfilled, `some reason` carries the first rejection reason (or the
generic message). -/
def publishOnce (outcomes : Nat → List Settled) (relays : List String)
    (attempt : Nat) : Option String × List NetAction :=
  let trace := relays.map NetAction.ensureRelay ++ [NetAction.publishRequest relays]
  let results := outcomes attempt
  if results.any Settled.isFulfilled then (none, trace)
  else
    let reason :=
      match results.find? (fun r => !r.isFulfilled) with
      | some (Settled.rejected msg) => msg
      | some Settled.fulfilled => "Failed to publish to relays"
      | none => "Failed to publish to relays"
    (some reason, trace)

/-- `publish` with explicit attempt counter; `outcomes n` is the settled
per-relay result list of attempt `n`. Recursion is on the remaining
retries, exactly as `retries - 1` in the source. -/
def publishAux (outcomes : Nat → List Settled) (relays : List String) :
    Nat → Nat → PublishResult
  | attempt, 0 =>
    if relays.length = 0 then
      { outcome := TryResult.threw
        errorMsg := some "At least one relay is required"
        trace := [] }
    else
      match publishOnce outcomes relays attempt with
      | (none, trace) => { outcome := TryResult.ok (), errorMsg := none, trace := trace }
      | (some reason, trace) =>
        { outcome := TryResult.threw, errorMsg := some reason, trace := trace }
  | attempt, r + 1 =>
    if relays.length = 0 then
      { outcome := TryResult.threw
        errorMsg := some "At least one relay is required"
        trace := [] }
    else
      match publishOnce outcomes relays attempt with
      | (none, trace) => { outcome := TryResult.ok (), errorMsg := none, trace := trace }
      | (some _, trace) =>
        let rest := publishAux outcomes relays (attempt + 1) r
        { rest with trace := trace ++ rest.trace }

/-- `VectorClient.publish(event, relays, retries)`. The event itself is not
inspected by the publish logic. -/
def publish (outcomes : Nat → List Settled) (ev : NostrEvent)
    (relays : List String) (retries : Nat) : PublishResult :=
  publishAux outcomes relays 0 retries

/-! ## Relay health monitor (`startConnectionMonitor`) -/

/-- Per-relay monitor state: `connectionState` is the stable flag (`none`
before the first observation), plus the streak counters and the reconnect
backoff stamp. -/
structure RelayMonState where
  connectionState : Option Bool
  downStreak : Nat
  upStreak : Nat
  lastReconnectAttemptAt : Nat
deriving DecidableEq, Repr

/-- The monitor's externally visible actions for one relay in one tick. -/
inductive MonAction where
  | disconnect
  | reconnect
  | reconnectAttempt
deriving DecidableEq, Repr

/-- One poll of one relay inside the `setInterval` callback: streak update,
hysteresis state machine with warm-up window, then the backoff-limited
reconnect attempt. -/
def monitorRelayStep (shouldReconnect : Bool) (interval startedAt now : Nat)
    (connected : Bool) (st : RelayMonState) : RelayMonState × List MonAction :=
  let disconnectThreshold := 2
  let reconnectThreshold := 2
  let reconnectBackoffMs := max 15000 (interval * 2)
  let warmupMs := max 20000 (interval * 2)
  let downStreak := st.downStreak + (if connected then 0 else 1)
  let upStreak := st.upStreak + (if connected then 1 else 0)
  let st1 :=
    { st with
      downStreak := if connected then 0 else downStreak
      upStreak := if connected then upStreak else 0 }
  let step2 : RelayMonState × List MonAction :=
    match st.connectionState with
    | none => ({ st1 with connectionState := some connected }, [])
    | some previousStable =>
      if previousStable = true ∧ connected = false ∧ downStreak ≥ disconnectThreshold then
        if now - startedAt ≥ warmupMs then
          ({ st1 with connectionState := some false }, [MonAction.disconnect])
        else (st1, [])
      else if previousStable = false ∧ connected = true ∧ upStreak ≥ reconnectThreshold then
        ({ st1 with connectionState := some true }, [MonAction.reconnect])
      else (st1, [])
  if shouldReconnect = true ∧ connected = false then
    if now - step2.1.lastReconnectAttemptAt < reconnectBackoffMs then step2
    else
      ({ step2.1 with lastReconnectAttemptAt := now },
       step2.2 ++ [MonAction.reconnectAttempt])
  else step2

/-! ## Spec-side predicates -/

/-- The spec's group-set invariant:
`configuredGroupIds ⊆ joinedGroupIds ⊆ knownGroupIds`. -/
def GroupInv (st : ClientState) : Prop :=
  (∀ x ∈ st.configuredGroupIds, x ∈ st.joinedGroupIds) ∧
  (∀ x ∈ st.joinedGroupIds, x ∈ st.knownGroupIds)

instance (st : ClientState) : Decidable (GroupInv st) := by
  unfold GroupInv
  infer_instance

/-- The directed-to-bot predicate as the claim words it: a `p` mention of the
bot, or the trimmed lowercased content starting with `@name` or `name:`
for a configured (non-empty) short or display name, or membership plus a
`!command` prefix on the trimmed content. -/
def specDirectedToBot (bot : BotInfo) (content : String) (botInGroup : Bool)
    (tags : List (List String)) : Bool :=
  hasBotPTag bot tags
  || nameMention (jsToLower (jsTrim content)) (jsToLower bot.name)
  || nameMention (jsToLower (jsTrim content)) (jsToLower bot.displayName)
  || (botInGroup && startsBangCommand (jsTrim content))

/-- Number of `message` emissions in a trace. -/
def msgCount (l : List Emitted) : Nat :=
  l.countP fun e =>
    match e with
    | Emitted.message _ => true
    | _ => false

/-- Whether a trace contains a `group_bootstrap_complete` summary reporting
the given discovery count. -/
def reportsDiscovered (l : List Emitted) (n : Nat) : Bool :=
  l.any fun e =>
    match e with
    | Emitted.groupBootstrapComplete d _ => d = n
    | _ => false

/-! ## Shared concrete fixtures for witnesses -/

def sampleEvent : NostrEvent :=
  { id := "e100", pubkey := "alice", created_at := 0, kind := 444,
    tags := [["h", "g1"]], content := "hello", sig := "sig" }

def sampleBot : BotInfo :=
  { publicKey := "botpk", name := "bob", displayName := "Bob Bot" }

def noProfiles : String → Option Profile := fun _ => none

def emptyState : ClientState :=
  { configuredGroupIds := [], joinedGroupIds := [], knownGroupIds := []
    observedGroupIds := [], seenMessageIds := [], emitted := [] }

def cfgRestricted : Config := { vectorOnly := true, discoverGroupsFromHistory := false }

def cfgOpenHistory : Config := { vectorOnly := false, discoverGroupsFromHistory := true }

/-! ## C3 / C4 — quorum publisher -/

/-- C3: for every event and non-empty relay list, if at least one per-relay
outcome of the publish attempt is fulfilled, `publish` resolves
successfully, regardless of the other relays' outcomes. -/
theorem publish_succeeds_with_one_ack (outcomes : Nat → List Settled)
    (ev : NostrEvent) (relays : List String) (retries : Nat)
    (hne : relays ≠ [])
    (hack : (outcomes 0).any Settled.isFulfilled = true) :
    (publish outcomes ev relays retries).outcome = TryResult.ok () := by
  have hlen : ¬ relays.length = 0 := by
    simpa [List.length_eq_zero] using hne
  cases retries with
  | zero => simp [publish, publishAux, publishOnce, hlen, hack]
  | succ r => simp [publish, publishAux, publishOnce, hlen, hack]

theorem publish_succeeds_with_one_ack_witness :
    (["r1", "r2"] ≠ ([] : List String)) ∧
    (([Settled.rejected "conn refused", Settled.fulfilled]).any Settled.isFulfilled = true) ∧
    (publish (fun _ => [Settled.rejected "conn refused", Settled.fulfilled])
      sampleEvent ["r1", "r2"] 1).outcome = TryResult.ok () :=
  ⟨by decide, by decide,
    publish_succeeds_with_one_ack
      (fun _ => [Settled.rejected "conn refused", Settled.fulfilled])
      sampleEvent ["r1", "r2"] 1 (by decide) (by decide)⟩

/-- C4: for every event and retry count, publishing to an empty relay list
fails immediately with the configuration error and issues no network
request at all. -/
theorem publish_empty_relays_fails_without_io (outcomes : Nat → List Settled)
    (ev : NostrEvent) (retries : Nat) :
    publish outcomes ev [] retries =
      { outcome := TryResult.threw
        errorMsg := some "At least one relay is required"
        trace := [] } := by
  cases retries with
  | zero => rfl
  | succ r => rfl

/-! ## C8 — gift-wrap unwrap failure is silent and state-preserving -/

/-- C8: when the envelope unwrap throws, `handleGiftWrap` returns with the
state (group sets, dedup cache, emission trace — hence no `error` and no
`message`) completely unchanged. -/
theorem giftwrap_unwrap_failure_is_silent (cfg : Config) (bot : BotInfo)
    (profiles : String → Option Profile) (welcome : AdapterCall (Option String))
    (decrypt : AdapterCall (Option MlsDecrypted)) (st : ClientState)
    (ev : NostrEvent) (emitDirectMessages : Bool) :
    handleGiftWrap cfg bot profiles none welcome decrypt st ev emitDirectMessages = st :=
  rfl

/-! ## C2 — dedup cache gives at-most-one emission per event id -/

lemma mem_dedupInsert_of_fresh {seen : List String} {id : String}
    (h : id ∉ seen) : id ∈ dedupInsert seen id := by
  unfold dedupInsert setAdd
  rw [if_neg h]
  by_cases hlen : (seen ++ [id]).length > 10000
  · rw [if_pos hlen]
    cases seen with
    | nil => simp at hlen
    | cons a t =>
      by_cases ha : a = ""
      · simp [ha]
      · simp [ha]
  · rw [if_neg hlen]
    simp

lemma emitMessage_of_seen (bot : BotInfo) (profiles : String → Option Profile)
    (st : ClientState) (pubkey : String) (kind : Nat) (rawEvent : NostrEvent)
    (content : String) (wrapped : Bool) (override : Option MsgOverride)
    (h : rawEvent.id ∈ st.seenMessageIds) :
    emitMessage bot profiles st pubkey kind rawEvent content wrapped override = st := by
  unfold emitMessage
  rw [if_pos h]

lemma emitMessage_of_fresh (bot : BotInfo) (profiles : String → Option Profile)
    (st : ClientState) (pubkey : String) (kind : Nat) (rawEvent : NostrEvent)
    (content : String) (wrapped : Bool) (override : Option MsgOverride)
    (h : rawEvent.id ∉ st.seenMessageIds) :
    (emitMessage bot profiles st pubkey kind rawEvent content wrapped override).seenMessageIds =
      dedupInsert st.seenMessageIds rawEvent.id ∧
    ∃ m, (emitMessage bot profiles st pubkey kind rawEvent content wrapped override).emitted =
      st.emitted ++ [Emitted.message m] := by
  unfold emitMessage
  rw [if_neg h]
  exact ⟨rfl, _, rfl⟩

/-- C2: a fresh event id produces exactly one new `message` emission, and a
second run of the emission path with any event carrying the same id (it is
still in the dedup cache) returns with the whole state unchanged. -/
theorem emit_same_id_twice_yields_one_message
    (bot bot2 : BotInfo) (profiles profiles2 : String → Option Profile)
    (st : ClientState) (pubkey pubkey2 : String) (kind kind2 : Nat)
    (rawEvent rawEvent2 : NostrEvent) (content content2 : String)
    (wrapped wrapped2 : Bool) (override override2 : Option MsgOverride)
    (hid : rawEvent2.id = rawEvent.id)
    (hfresh : rawEvent.id ∉ st.seenMessageIds) :
    msgCount (emitMessage bot profiles st pubkey kind rawEvent content wrapped override).emitted =
      msgCount st.emitted + 1 ∧
    emitMessage bot2 profiles2
        (emitMessage bot profiles st pubkey kind rawEvent content wrapped override)
        pubkey2 kind2 rawEvent2 content2 wrapped2 override2 =
      emitMessage bot profiles st pubkey kind rawEvent content wrapped override := by
  obtain ⟨hseen, m, hemit⟩ :=
    emitMessage_of_fresh bot profiles st pubkey kind rawEvent content wrapped override hfresh
  constructor
  · rw [hemit]
    unfold msgCount
    rw [List.countP_append]
    rfl
  · apply emitMessage_of_seen
    rw [hid, hseen]
    exact mem_dedupInsert_of_fresh hfresh

theorem emit_same_id_twice_yields_one_message_witness :
    (sampleEvent.id = sampleEvent.id) ∧ (sampleEvent.id ∉ emptyState.seenMessageIds) ∧
    (msgCount (emitMessage sampleBot noProfiles emptyState "alice" 14 sampleEvent "hi" true none).emitted =
        msgCount emptyState.emitted + 1 ∧
      emitMessage sampleBot noProfiles
          (emitMessage sampleBot noProfiles emptyState "alice" 14 sampleEvent "hi" true none)
          "alice" 14 sampleEvent "hi" true none =
        emitMessage sampleBot noProfiles emptyState "alice" 14 sampleEvent "hi" true none) :=
  ⟨rfl, by decide,
    emit_same_id_twice_yields_one_message sampleBot sampleBot noProfiles noProfiles
      emptyState "alice" "alice" 14 14 sampleEvent sampleEvent "hi" "hi" true true none none
      rfl (by decide)⟩

/-! ## C7 — restricted mode ignores untracked group wrappers -/

/-- C7: in restricted (vectorOnly) mode, a group wrapper whose group id is in
none of the joined, configured or known sets only records the id as
observed: the result state differs from the input solely in
`observedGroupIds`, so nothing is emitted and no other set nor the dedup
cache changes. -/
theorem restricted_untracked_wrapper_only_observed (cfg : Config) (bot : BotInfo)
    (profiles : String → Option Profile) (decrypt : AdapterCall (Option MlsDecrypted))
    (st : ClientState) (ev : NostrEvent) (g : String)
    (hvec : cfg.vectorOnly = true)
    (hkind : ev.kind = VECTOR_MLS_GROUP_WRAPPER_KIND)
    (hex : extractGroupIdFromEvent ev = some g)
    (hj : g ∉ st.joinedGroupIds) (hc : g ∉ st.configuredGroupIds)
    (hk : g ∉ st.knownGroupIds) :
    handleGroupMessage cfg bot profiles decrypt st ev =
      { st with observedGroupIds := setAdd st.observedGroupIds g } := by
  unfold handleGroupMessage
  simp [hvec, hkind, hex, isGroupTracked, hj, hc, hk]

theorem restricted_untracked_wrapper_only_observed_witness :
    (cfgRestricted.vectorOnly = true) ∧
    (sampleEvent.kind = VECTOR_MLS_GROUP_WRAPPER_KIND) ∧
    (extractGroupIdFromEvent sampleEvent = some "g1") ∧
    ("g1" ∉ emptyState.joinedGroupIds) ∧ ("g1" ∉ emptyState.configuredGroupIds) ∧
    ("g1" ∉ emptyState.knownGroupIds) ∧
    handleGroupMessage cfgRestricted sampleBot noProfiles AdapterCall.absent emptyState sampleEvent =
      { emptyState with observedGroupIds := setAdd emptyState.observedGroupIds "g1" } :=
  ⟨rfl, rfl, by decide, by decide, by decide, by decide,
    restricted_untracked_wrapper_only_observed cfgRestricted sampleBot noProfiles
      AdapterCall.absent emptyState sampleEvent "g1" rfl rfl (by decide) (by decide)
      (by decide) (by decide)⟩

/-! ## C6 — directed-to-bot classifier -/

lemma stringDataAppend (s t : String) : (s ++ t).data = s.data ++ t.data := rfl

lemma strStartsWithEmptyLeft (p : String) (h : p.data ≠ []) :
    strStartsWith "" p = false := by
  unfold strStartsWith
  cases hp : p.data with
  | nil => exact absurd hp h
  | cons a l => simp [List.isPrefixOf]

lemma nameMentionEmptyLower (nm : String) : nameMention "" nm = false := by
  unfold nameMention
  by_cases h : nm = ""
  · simp [h]
  · have hdata : nm.data ≠ [] := by
      intro hd
      apply h
      cases nm with
      | mk d => simp at hd; rw [hd]
    have h1 : strStartsWith "" ("@" ++ nm) = false := by
      apply strStartsWithEmptyLeft
      rw [stringDataAppend]
      simp
    have h2 : strStartsWith "" (nm ++ ":") = false := by
      apply strStartsWithEmptyLeft
      rw [stringDataAppend]
      simp [hdata]
    simp [h, h1, h2]

/-- C6: the classifier returns true exactly when a `p` tag mentions the bot's
public key, or the trimmed lowercased content starts with `@name` or
`name:` for a configured (non-empty) short or display name, or the bot is
in the group and the trimmed content starts with a `!command` token; the
claim's three concrete examples are checked with bot short name `bob`. -/
theorem directed_to_bot_characterization :
    (∀ (bot : BotInfo) (content : String) (botInGroup : Bool)
        (tags : List (List String)),
      isGroupContentDirectedToBot bot content botInGroup tags =
        specDirectedToBot bot content botInGroup tags) ∧
    isGroupContentDirectedToBot sampleBot "@bob hi" false [] = true ∧
    isGroupContentDirectedToBot sampleBot "!ping" false [] = false ∧
    isGroupContentDirectedToBot sampleBot "!ping" true [] = true := by
  refine ⟨?_, by decide, by decide, by decide⟩
  intro bot content botInGroup tags
  unfold isGroupContentDirectedToBot specDirectedToBot
  cases hp : hasBotPTag bot tags with
  | true => simp
  | false =>
    simp only [Bool.false_or]
    by_cases ht : jsTrim content = ""
    · have hlow : jsToLower "" = "" := rfl
      have hbang : startsBangCommand "" = false := rfl
      simp [ht, hlow, hbang, nameMentionEmptyLower]
    · have htb : (jsTrim content == "") = false := by
        simp [ht]
      simp only [htb, Bool.false_eq_true, if_false]
      cases h1 : nameMention (jsToLower (jsTrim content)) (jsToLower bot.name) with
      | true => simp [h1]
      | false =>
        cases h2 : nameMention (jsToLower (jsTrim content)) (jsToLower bot.displayName) with
        | true => simp [h1, h2]
        | false =>
          cases h3 : botInGroup && startsBangCommand (jsTrim content) with
          | true => simp [h1, h2, h3]
          | false => simp [h1, h2, h3]

/-! ## C5 — health monitor hysteresis and warm-up -/

/-- C5: in one monitor poll, `disconnect` is emitted exactly when the stable
state was true, the relay now reports down with a down streak reaching 2,
and at least `max 20000 (2 * interval)` ms have elapsed since monitor
start; `reconnect` exactly when the stable state was false and the up
streak reaches 2; a first observation only seeds the stable state and
emits neither. Every run of the monitor is a sequence of such polls. -/
theorem monitor_hysteresis (shouldReconnect : Bool) (interval startedAt now : Nat)
    (connected : Bool) (st : RelayMonState) :
    (MonAction.disconnect ∈ (monitorRelayStep shouldReconnect interval startedAt now connected st).2 ↔
      (st.connectionState = some true ∧ connected = false ∧ st.downStreak + 1 ≥ 2 ∧
        now - startedAt ≥ max 20000 (interval * 2))) ∧
    (MonAction.reconnect ∈ (monitorRelayStep shouldReconnect interval startedAt now connected st).2 ↔
      (st.connectionState = some false ∧ connected = true ∧ st.upStreak + 1 ≥ 2)) ∧
    (st.connectionState = none →
      (monitorRelayStep shouldReconnect interval startedAt now connected st).1.connectionState =
        some connected) := by
  obtain ⟨cs, ds, us, lr⟩ := st
  unfold monitorRelayStep
  rcases cs with _ | b
  · cases shouldReconnect <;> cases connected <;>
      by_cases hb : now - lr < max 15000 (interval * 2) <;>
      simp [hb]
  · cases b <;> cases shouldReconnect <;> cases connected <;>
      by_cases hd : ds + 1 ≥ 2 <;>
      by_cases hu : us + 1 ≥ 2 <;>
      by_cases hw : now - startedAt ≥ max 20000 (interval * 2) <;>
      by_cases hb : now - lr < max 15000 (interval * 2) <;>
      simp [hd, hu, hw, hb]

def monStableDownOnce : RelayMonState :=
  { connectionState := some true, downStreak := 1, upStreak := 0
    lastReconnectAttemptAt := 0 }

theorem monitor_hysteresis_witness :
    (MonAction.disconnect ∈ (monitorRelayStep false 15000 0 40000 false monStableDownOnce).2 ↔
      (monStableDownOnce.connectionState = some true ∧ false = false ∧
        monStableDownOnce.downStreak + 1 ≥ 2 ∧ 40000 - 0 ≥ max 20000 (15000 * 2))) ∧
    (MonAction.reconnect ∈ (monitorRelayStep false 15000 0 40000 false monStableDownOnce).2 ↔
      (monStableDownOnce.connectionState = some false ∧ false = true ∧
        monStableDownOnce.upStreak + 1 ≥ 2)) ∧
    (monStableDownOnce.connectionState = none →
      (monitorRelayStep false 15000 0 40000 false monStableDownOnce).1.connectionState =
        some false) :=
  monitor_hysteresis false 15000 0 40000 false monStableDownOnce

/-! ## C10 — group send updates the registry only on success -/

/-- C10: whenever `sendGroupMessage` does not return true — empty trimmed
group id or disconnected client (throws), missing adapter method (returns
false), adapter send returning false or throwing, or open-mode publish
failure — the joined and known sets are unchanged; they gain exactly the
trimmed group id when it returns true. -/
theorem send_group_registry_only_on_success (cfg : Config) (connected : Bool)
    (adapterSend : AdapterCall Bool) (publishOutcome : TryResult Unit)
    (st : ClientState) (groupId message : String) :
    ((sendGroupMessage cfg connected adapterSend publishOutcome st groupId message).1 ≠
        SendResult.returned true →
      (sendGroupMessage cfg connected adapterSend publishOutcome st groupId message).2.joinedGroupIds =
          st.joinedGroupIds ∧
      (sendGroupMessage cfg connected adapterSend publishOutcome st groupId message).2.knownGroupIds =
          st.knownGroupIds) ∧
    ((sendGroupMessage cfg connected adapterSend publishOutcome st groupId message).1 =
        SendResult.returned true →
      (sendGroupMessage cfg connected adapterSend publishOutcome st groupId message).2.joinedGroupIds =
          setAdd st.joinedGroupIds (jsTrim groupId) ∧
      (sendGroupMessage cfg connected adapterSend publishOutcome st groupId message).2.knownGroupIds =
          setAdd st.knownGroupIds (jsTrim groupId)) := by
  cases connected with
  | false => simp [sendGroupMessage]
  | true =>
    by_cases hg : jsTrim groupId = ""
    · simp [sendGroupMessage, hg]
    · cases hvo : cfg.vectorOnly with
      | true =>
        cases adapterSend with
        | absent => simp [sendGroupMessage, hg, hvo, emitEv]
        | threw => simp [sendGroupMessage, hg, hvo]
        | ok b => cases b <;> simp [sendGroupMessage, hg, hvo]
      | false =>
        cases publishOutcome with
        | ok a => simp [sendGroupMessage, hg, hvo]
        | threw => simp [sendGroupMessage, hg, hvo]

theorem send_group_registry_only_on_success_witness :
    ((sendGroupMessage cfgRestricted true (AdapterCall.ok true) (TryResult.ok ()) emptyState " g1 " "hi").1 ≠
        SendResult.returned true →
      (sendGroupMessage cfgRestricted true (AdapterCall.ok true) (TryResult.ok ()) emptyState " g1 " "hi").2.joinedGroupIds =
          emptyState.joinedGroupIds ∧
      (sendGroupMessage cfgRestricted true (AdapterCall.ok true) (TryResult.ok ()) emptyState " g1 " "hi").2.knownGroupIds =
          emptyState.knownGroupIds) ∧
    ((sendGroupMessage cfgRestricted true (AdapterCall.ok true) (TryResult.ok ()) emptyState " g1 " "hi").1 =
        SendResult.returned true →
      (sendGroupMessage cfgRestricted true (AdapterCall.ok true) (TryResult.ok ()) emptyState " g1 " "hi").2.joinedGroupIds =
          setAdd emptyState.joinedGroupIds (jsTrim " g1 ") ∧
      (sendGroupMessage cfgRestricted true (AdapterCall.ok true) (TryResult.ok ()) emptyState " g1 " "hi").2.knownGroupIds =
          setAdd emptyState.knownGroupIds (jsTrim " g1 ")) :=
  send_group_registry_only_on_success cfgRestricted true
    (AdapterCall.ok true) (TryResult.ok ()) emptyState " g1 " "hi"

/-! ## C9 — bootstrap discovery count over two wrapper events -/

def wrapEventG1 : NostrEvent :=
  { id := "w1", pubkey := "p1", created_at := 10, kind := 444,
    tags := [["h", "g1"]], content := "c1", sig := "s1" }

def wrapEventG2 : NostrEvent :=
  { id := "w2", pubkey := "p2", created_at := 11, kind := 444,
    tags := [["h", "g2"]], content := "c2", sig := "s2" }

def bootstrapTwoWrappers : BootstrapOracles :=
  { giftWraps := [], syncWelcomes := AdapterCall.absent
    bootstrapGroups := AdapterCall.absent
    wrapperEvents := [wrapEventG1, wrapEventG2] }

def stateKnownG1 : ClientState :=
  { configuredGroupIds := [], joinedGroupIds := [], knownGroupIds := ["g1"]
    observedGroupIds := [], seenMessageIds := [], emitted := [] }

/-- C9 counterexample: in the default restricted (vectorOnly) mode, the
bootstrap over exactly two wrapper events with `g1` already known and `g2`
fresh reports `discovered = 0`, not 1 — the untracked `g2` is skipped by
the `isGroupTracked` guard. -/
theorem bootstrap_two_wrappers_restricted_reports_zero :
    reportsDiscovered
        (bootstrapKnownGroups { vectorOnly := true, discoverGroupsFromHistory := true }
          sampleBot noProfiles bootstrapTwoWrappers stateKnownG1).emitted 1 = false ∧
    reportsDiscovered
        (bootstrapKnownGroups { vectorOnly := true, discoverGroupsFromHistory := true }
          sampleBot noProfiles bootstrapTwoWrappers stateKnownG1).emitted 0 = true := by
  constructor
  · rfl
  · rfl

/-- C9 (amended): in open (non-vectorOnly) mode, historical bootstrap over
exactly two wrapper events carrying `g1` (already known) and `g2` (fresh)
emits one discovery notification, for `g2` only, and concludes with
`group_bootstrap_complete` reporting `discovered = 1`; in restricted mode
a fully untracked `g2` is skipped instead (see the counterexample). -/
theorem bootstrap_two_wrappers_open_reports_one (cfg : Config) (bot : BotInfo)
    (profiles : String → Option Profile) (st : ClientState)
    (e1 e2 : NostrEvent) (g1 g2 : String)
    (hvo : cfg.vectorOnly = false)
    (hdh : cfg.discoverGroupsFromHistory = true)
    (hex1 : extractGroupIdFromEvent e1 = some g1)
    (hex2 : extractGroupIdFromEvent e2 = some g2)
    (hk1 : g1 ∈ st.knownGroupIds)
    (hk2 : g2 ∉ st.knownGroupIds) :
    bootstrapKnownGroups cfg bot profiles
        { giftWraps := [], syncWelcomes := AdapterCall.absent
          bootstrapGroups := AdapterCall.absent
          wrapperEvents := [e1, e2] } st =
      { st with
        observedGroupIds := setAdd (setAdd st.observedGroupIds g1) g2
        knownGroupIds := setAdd st.knownGroupIds g2
        emitted := st.emitted ++
          [Emitted.groupDiscovered g2 e2.id e2.pubkey "history",
           Emitted.groupBootstrapDebug 0 2,
           Emitted.groupBootstrapComplete 1 (setAdd st.knownGroupIds g2)] } := by
  unfold bootstrapKnownGroups
  simp only [hdh, Bool.not_true, Bool.false_eq_true, if_false,
    bootstrapGiftWrapPhase, bootstrapSyncPhase, bootstrapAdapterPhase, List.foldl]
  unfold bootstrapWrapperStep
  simp [hvo, hex1, hex2, hk1, hk2, emitEv]

theorem bootstrap_two_wrappers_open_reports_one_witness :
    (cfgOpenHistory.vectorOnly = false) ∧ (cfgOpenHistory.discoverGroupsFromHistory = true) ∧
    (extractGroupIdFromEvent wrapEventG1 = some "g1") ∧
    (extractGroupIdFromEvent wrapEventG2 = some "g2") ∧
    ("g1" ∈ stateKnownG1.knownGroupIds) ∧ ("g2" ∉ stateKnownG1.knownGroupIds) ∧
    bootstrapKnownGroups cfgOpenHistory sampleBot noProfiles
        { giftWraps := [], syncWelcomes := AdapterCall.absent
          bootstrapGroups := AdapterCall.absent
          wrapperEvents := [wrapEventG1, wrapEventG2] } stateKnownG1 =
      { stateKnownG1 with
        observedGroupIds := setAdd (setAdd stateKnownG1.observedGroupIds "g1") "g2"
        knownGroupIds := setAdd stateKnownG1.knownGroupIds "g2"
        emitted := stateKnownG1.emitted ++
          [Emitted.groupDiscovered "g2" wrapEventG2.id wrapEventG2.pubkey "history",
           Emitted.groupBootstrapDebug 0 2,
           Emitted.groupBootstrapComplete 1 (setAdd stateKnownG1.knownGroupIds "g2")] } :=
  ⟨rfl, rfl, by decide, by decide, by decide, by decide,
    bootstrap_two_wrappers_open_reports_one cfgOpenHistory sampleBot noProfiles stateKnownG1
      wrapEventG1 wrapEventG2 "g1" "g2" rfl rfl (by decide) (by decide)
      (by decide) (by decide)⟩

/-! ## C1 — the group-set inclusion chain -/

lemma mem_setAdd {l : List String} {x y : String} :
    y ∈ setAdd l x ↔ y ∈ l ∨ y = x := by
  by_cases h : x ∈ l
  · rw [setAdd, if_pos h]
    constructor
    · exact Or.inl
    · rintro (h1 | rfl)
      · exact h1
      · exact h
  · rw [setAdd, if_neg h]
    simp

lemma subset_setAdd_right {l1 l2 : List String} {x : String}
    (h : ∀ a ∈ l1, a ∈ l2) : ∀ a ∈ l1, a ∈ setAdd l2 x :=
  fun a ha => mem_setAdd.mpr (Or.inl (h a ha))

lemma subset_setAdd_both {l1 l2 : List String} {x : String}
    (h : ∀ a ∈ l1, a ∈ l2) : ∀ a ∈ setAdd l1 x, a ∈ setAdd l2 x := by
  intro a ha
  rcases mem_setAdd.mp ha with h1 | rfl
  · exact mem_setAdd.mpr (Or.inl (h a h1))
  · exact mem_setAdd.mpr (Or.inr rfl)

lemma groupInv_emitEv (st : ClientState) (e : Emitted) (h : GroupInv st) :
    GroupInv (emitEv st e) := h

lemma emitMessage_groupFields (bot : BotInfo) (profiles : String → Option Profile)
    (st : ClientState) (pubkey : String) (kind : Nat) (rawEvent : NostrEvent)
    (content : String) (wrapped : Bool) (override : Option MsgOverride) :
    (emitMessage bot profiles st pubkey kind rawEvent content wrapped override).configuredGroupIds =
        st.configuredGroupIds ∧
    (emitMessage bot profiles st pubkey kind rawEvent content wrapped override).joinedGroupIds =
        st.joinedGroupIds ∧
    (emitMessage bot profiles st pubkey kind rawEvent content wrapped override).knownGroupIds =
        st.knownGroupIds := by
  unfold emitMessage
  split <;> exact ⟨rfl, rfl, rfl⟩

lemma groupInv_emitMessage (bot : BotInfo) (profiles : String → Option Profile)
    (st : ClientState) (pubkey : String) (kind : Nat) (rawEvent : NostrEvent)
    (content : String) (wrapped : Bool) (override : Option MsgOverride)
    (h : GroupInv st) :
    GroupInv (emitMessage bot profiles st pubkey kind rawEvent content wrapped override) := by
  obtain ⟨hc, hj, hk⟩ :=
    emitMessage_groupFields bot profiles st pubkey kind rawEvent content wrapped override
  unfold GroupInv at h ⊢
  rw [hc, hj, hk]
  exact h

lemma groupInv_addBoth {st : ClientState} {g : String} (h : GroupInv st) :
    GroupInv
      { st with
        knownGroupIds := setAdd st.knownGroupIds g
        joinedGroupIds := setAdd st.joinedGroupIds g } :=
  ⟨subset_setAdd_right h.1, subset_setAdd_both h.2⟩

lemma groupInv_addKnown {st : ClientState} {g : String} (h : GroupInv st) :
    GroupInv { st with knownGroupIds := setAdd st.knownGroupIds g } :=
  ⟨h.1, subset_setAdd_right h.2⟩

lemma foldlInv {α : Type} {f : ClientState → α → ClientState}
    (hf : ∀ s a, GroupInv s → GroupInv (f s a)) :
    ∀ (l : List α) (s : ClientState), GroupInv s → GroupInv (List.foldl f s l) := by
  intro l
  induction l with
  | nil => exact fun s h => h
  | cons a t ih => exact fun s h => ih (f s a) (hf s a h)

lemma foldlInvPair {α : Type} {f : ClientState × Nat → α → ClientState × Nat}
    (hf : ∀ p a, GroupInv p.1 → GroupInv (f p a).1) :
    ∀ (l : List α) (p : ClientState × Nat), GroupInv p.1 → GroupInv (List.foldl f p l).1 := by
  intro l
  induction l with
  | nil => exact fun p h => h
  | cons a t ih => exact fun p h => ih (f p a) (hf p a h)

lemma isBotInGroup_snd_of_ne {bot : BotInfo} {st : ClientState} {groupId : String}
    {ev : NostrEvent} (hpub : ev.pubkey ≠ bot.publicKey) :
    (isBotInGroup bot st groupId ev).2 = st := by
  unfold isBotInGroup
  rw [if_neg hpub]
  split
  · rfl
  · split <;> rfl

lemma handleGroupMessage_inv (cfg : Config) (bot : BotInfo)
    (profiles : String → Option Profile) (decrypt : AdapterCall (Option MlsDecrypted))
    (st : ClientState) (ev : NostrEvent)
    (hside : cfg.vectorOnly = true ∨ ev.pubkey ≠ bot.publicKey ∨ ev.kind ≠ ChatMessageKind)
    (h : GroupInv st) :
    GroupInv (handleGroupMessage cfg bot profiles decrypt st ev) := by
  simp only [handleGroupMessage]
  split
  · -- restricted branch: every set growth pairs known/joined or grows known
    repeat' split
    all_goals first
      | exact h
      | exact groupInv_addKnown h
      | exact groupInv_emitMessage _ _ _ _ _ _ _ _ _ (groupInv_addBoth h)
      | exact groupInv_emitMessage _ _ _ _ _ _ _ _ _
          (groupInv_addBoth (groupInv_addKnown h))
  · -- open mode: here the event is not bot-authored, so isBotInGroup is pure
    rename_i hvec
    split
    · exact h
    split
    · exact h
    rename_i hkindEq xv gId hex
    have hkind9 : ev.kind = ChatMessageKind := not_not.mp hkindEq
    have hpub : ev.pubkey ≠ bot.publicKey := by
      rcases hside with hv | hp | hknd
      · exact absurd hv hvec
      · exact hp
      · exact absurd hkind9 hknd
    exact groupInv_emitMessage _ _ _ _ _ _ _ _ _
      (by rw [isBotInGroup_snd_of_ne hpub]; exact h)

lemma handleDirectMessage_inv (bot : BotInfo) (profiles : String → Option Profile)
    (decrypt : TryResult String) (st : ClientState) (ev : NostrEvent)
    (h : GroupInv st) :
    GroupInv (handleDirectMessage bot profiles decrypt st ev) := by
  simp only [handleDirectMessage]
  split
  · exact h
  split
  · exact groupInv_emitMessage _ _ _ _ _ _ _ _ _ h
  · exact h

lemma handleGiftWrap_inv (cfg : Config) (bot : BotInfo)
    (profiles : String → Option Profile) (unwrap : Option Rumor)
    (welcome : AdapterCall (Option String)) (decrypt : AdapterCall (Option MlsDecrypted))
    (st : ClientState) (ev : NostrEvent) (emitDirectMessages : Bool)
    (h : GroupInv st) :
    GroupInv (handleGiftWrap cfg bot profiles unwrap welcome decrypt st ev emitDirectMessages) := by
  simp only [handleGiftWrap]
  split
  · exact h
  rename_i rumor
  split
  · exact groupInv_emitMessage _ _ _ _ _ _ _ _ _ h
  split
  · rename_i hdm hrk
    apply handleGroupMessage_inv
    · right
      right
      show (normalizeRumorWrapperEvent rumor ev).kind ≠ ChatMessageKind
      have hnk : (normalizeRumorWrapperEvent rumor ev).kind = rumor.kind := rfl
      rw [hnk, hrk]
      decide
    · exact h
  split
  · repeat' split
    all_goals first
      | exact h
      | exact groupInv_addBoth h
      | exact groupInv_addBoth (groupInv_addBoth h)
  · exact h

lemma registerAdapterGroup_inv (evId sender : String) (st : ClientState) (g : String)
    (h : GroupInv st) : GroupInv (registerAdapterGroup evId sender st g) := by
  simp only [registerAdapterGroup]
  repeat' split
  all_goals first
    | exact h
    | exact groupInv_addBoth h

lemma bootstrapWrapperStep_inv (vectorOnly : Bool) (acc : ClientState × Nat)
    (ev : NostrEvent) (h : GroupInv acc.1) :
    GroupInv (bootstrapWrapperStep vectorOnly acc ev).1 := by
  simp only [bootstrapWrapperStep]
  repeat' split
  all_goals first
    | exact h
    | exact groupInv_addKnown h

lemma bootstrapSyncPhase_inv (bot : BotInfo) (sync : AdapterCall (Option SyncResult))
    (st : ClientState) (h : GroupInv st) :
    GroupInv (bootstrapSyncPhase bot sync st) := by
  simp only [bootstrapSyncPhase]
  repeat' split
  all_goals first
    | exact h
    | exact foldlInv (registerAdapterGroup_inv _ _) _ _ h

lemma bootstrapAdapterPhase_inv (bot : BotInfo) (bg : AdapterCall (List String))
    (st : ClientState) (h : GroupInv st) :
    GroupInv (bootstrapAdapterPhase bot bg st) := by
  simp only [bootstrapAdapterPhase]
  repeat' split
  all_goals first
    | exact h
    | exact foldlInv (registerAdapterGroup_inv _ _) _ _ h

lemma bootstrapKnownGroups_inv (cfg : Config) (bot : BotInfo)
    (profiles : String → Option Profile) (o : BootstrapOracles) (st : ClientState)
    (h : GroupInv st) :
    GroupInv (bootstrapKnownGroups cfg bot profiles o st) := by
  simp only [bootstrapKnownGroups]
  split
  · exact h
  · exact
      foldlInvPair (fun p a hp => bootstrapWrapperStep_inv _ _ _ hp) _ _
        (bootstrapAdapterPhase_inv _ _ _
          (bootstrapSyncPhase_inv _ _ _
            (foldlInv
              (fun s gw hs => handleGiftWrap_inv cfg bot profiles gw.unwrap gw.welcome
                gw.decrypt s gw.ev false hs)
              _ _ h)))

lemma sendGroupMessage_snd_inv (cfg : Config) (connected : Bool)
    (adapterSend : AdapterCall Bool) (publishOutcome : TryResult Unit)
    (st : ClientState) (groupId message : String) (h : GroupInv st) :
    GroupInv (sendGroupMessage cfg connected adapterSend publishOutcome st groupId message).2 := by
  simp only [sendGroupMessage]
  repeat' split
  all_goals first
    | exact h
    | exact groupInv_addBoth h

lemma initState_inv (groupIds : List String) : GroupInv (initState groupIds) := by
  unfold initState
  apply foldlInv
  · intro s g hs
    by_cases hn : jsTrim g = ""
    · simp only [hn, if_pos]
      exact hs
    · simp only [hn, if_neg, ite_false]
      exact ⟨subset_setAdd_both hs.1, subset_setAdd_both hs.2⟩
  · decide

/-- The single operation shape that can break the inclusion chain: an
open-mode group wrapper authored by the bot itself (its `isBotInGroup`
registers the group into `joinedGroupIds` without touching
`knownGroupIds`). Every other operation is unconditionally safe. -/
def SafeOp (cfg : Config) (bot : BotInfo) : ClientOp → Prop
  | ClientOp.groupMessage ev _ => cfg.vectorOnly = true ∨ ev.pubkey ≠ bot.publicKey
  | _ => True

lemma applyOp_inv (cfg : Config) (bot : BotInfo) (profiles : String → Option Profile)
    (st : ClientState) (op : ClientOp) (hsafe : SafeOp cfg bot op)
    (h : GroupInv st) : GroupInv (applyOp cfg bot profiles st op) := by
  cases op with
  | giftWrap g edm => exact handleGiftWrap_inv _ _ _ _ _ _ _ _ _ h
  | directMessage ev d => exact handleDirectMessage_inv _ _ _ _ _ h
  | groupMessage ev d =>
    apply handleGroupMessage_inv
    · rcases hsafe with hv | hp
      · exact Or.inl hv
      · exact Or.inr (Or.inl hp)
    · exact h
  | bootstrap o => exact bootstrapKnownGroups_inv _ _ _ _ _ h
  | sendGroup gid msg conn adapterSend pub => exact sendGroupMessage_snd_inv _ _ _ _ _ _ _ h

def openSelfEvent : NostrEvent :=
  { id := "os1", pubkey := "botpk", created_at := 0, kind := 9,
    tags := [["h", "gX"]], content := "hi", sig := "s" }

/-- C1 counterexample: starting from a client constructed with no configured
groups, one open-mode (`vectorOnly = false`) group-wrapper handling step
for an event authored by the bot itself leaves the state with
`joinedGroupIds = [gX]` but `gX ∉ knownGroupIds`: the inclusion chain
`configured ⊆ joined ⊆ known` is violated. -/
theorem group_inclusion_chain_counterexample :
    ¬ GroupInv
      (runOps { vectorOnly := false, discoverGroupsFromHistory := false }
        sampleBot noProfiles (initState [])
        [ClientOp.groupMessage openSelfEvent AdapterCall.absent]) := by
  decide

/-- C1 (amended): the constructed state satisfies the inclusion chain, and it
is preserved at every point of every operation sequence in which no
open-mode group wrapper authored by the bot itself occurs (equivalently,
in all restricted-mode runs); that one operation shape can add a group to
`joinedGroupIds` without `knownGroupIds` (see the counterexample). -/
theorem group_inclusion_chain_for_safe_runs :
    (∀ groupIds : List String, GroupInv (initState groupIds)) ∧
    (∀ (cfg : Config) (bot : BotInfo) (profiles : String → Option Profile)
        (st : ClientState) (ops : List ClientOp),
      GroupInv st → (∀ op ∈ ops, SafeOp cfg bot op) →
      GroupInv (runOps cfg bot profiles st ops)) := by
  constructor
  · exact initState_inv
  · intro cfg bot profiles st ops
    induction ops generalizing st with
    | nil => exact fun h _ => h
    | cons op t ih =>
      intro h hsafe
      exact ih (applyOp cfg bot profiles st op)
        (applyOp_inv cfg bot profiles st op (hsafe op (List.mem_cons_self op t)) h)
        (fun o ho => hsafe o (List.mem_cons_of_mem op ho))

theorem group_inclusion_chain_for_safe_runs_witness :
    GroupInv (initState ["g1", " ", "g2"]) ∧
    GroupInv stateKnownG1 ∧
    SafeOp cfgRestricted sampleBot
      (ClientOp.sendGroup "g9" "hi" true (AdapterCall.ok true) (TryResult.ok ())) ∧
    GroupInv
      (runOps cfgRestricted sampleBot noProfiles stateKnownG1
        [ClientOp.sendGroup "g9" "hi" true (AdapterCall.ok true) (TryResult.ok ())]) :=
  ⟨group_inclusion_chain_for_safe_runs.1 ["g1", " ", "g2"], by decide, trivial,
    group_inclusion_chain_for_safe_runs.2 cfgRestricted sampleBot noProfiles stateKnownG1
      [ClientOp.sendGroup "g9" "hi" true (AdapterCall.ok true) (TryResult.ok ())]
      (by decide)
      (fun op hop => by
        rw [List.mem_singleton] at hop
        rw [hop]
        exact trivial)⟩

end VectorSdk
